import Mathlib

/-!
Verification of the voice-FNOL claims-processing agent
(`lib/services/voice-fnol-agent/app`): a shallow embedding of the
conversation-state and claim-extraction subsystem, with theorems about the
safety gate, the field extractor, the completeness validators, the context
store and the submission tool.

Python `Optional` values are embedded as `Option`; Python string truthiness
(`not s` is true for both `None` and `""`) is made explicit wherever the
source relies on it.  Apostrophes inside message strings from the source are
written with the `\x27` escape.
-/

namespace FNOL

/-- Python truthiness of an optional string: falsy iff absent or empty
(`not claim_data.get("location")` in the source). -/
def strFalsy : Option String → Bool
  | none => true
  | some s => s.isEmpty

/-- Python `a or b` on optional strings: returns `b` when `a` is falsy. -/
def pyOrStr (a b : Option String) : Option String :=
  if strFalsy a then b else a

/-- Python `a or dflt` collapsing an optional string to a string default. -/
def pyOrDefault (a : Option String) (dflt : String) : String :=
  match a with
  | none => dflt
  | some s => if s.isEmpty then dflt else s

/-! ## SafetyGate — `app/tools/safety_check.py`, `assess_safety` -/

/-- Guidance string returned by `assess_safety` when medical help is needed
(`safety_check.py` line 39). -/
def medicalGuidance : String :=
  "Please call 911 or your local emergency number immediately if you need medical assistance. Your safety is the priority. We can help with your claim once you\x27ve received medical attention."

/-- Guidance string returned by `assess_safety` when the caller is not in a
safe location (`safety_check.py` line 46). -/
def relocationGuidance : String :=
  "Please move to a safe location away from traffic before we continue. Your safety is most important."

/-- Guidance string returned by `assess_safety` when police have not been
contacted (`safety_check.py` line 54). -/
def policeRecommendationGuidance : String :=
  "I recommend contacting the police to file an accident report. This will help with your claim. Would you like to do that now, or shall we proceed with collecting your claim information?"

/-- Guidance string returned by `assess_safety` when all checks pass
(`safety_check.py` line 60). -/
def proceedGuidance : String :=
  "I\x27m glad you\x27re safe. Let\x27s proceed with collecting your claim information."

/-- Result dictionary of `assess_safety`. -/
structure SafetyResult where
  safety_confirmed : Bool
  guidance : String
deriving DecidableEq, Repr

/-- Embedding of `assess_safety` from `app/tools/safety_check.py`: a priority
cascade of early returns — medical need first, then unsafe location, then
missing police contact, then the all-clear.  The `is_safe` argument is
accepted but never read, exactly as in the source. -/
def assess_safety (is_safe needs_medical police_contacted in_safe_location : Bool) :
    SafetyResult :=
  if needs_medical then
    { safety_confirmed := false, guidance := medicalGuidance }
  else if !in_safe_location then
    { safety_confirmed := false, guidance := relocationGuidance }
  else if !police_contacted then
    { safety_confirmed := true, guidance := policeRecommendationGuidance }
  else
    { safety_confirmed := true, guidance := proceedGuidance }

/-! ## CompletenessValidator (submission-shaped) —
`app/tools/validate_fields.py`, `validate_required_fields` -/

/-- Input map of `validate_required_fields`.  The source reads a `dict` with
`.get`; the keys it consults are embedded as typed optional fields.
`involvedParties` is read with default `[]`, so an absent key and an empty
list are identified. -/
structure ClaimData where
  location : Option String := none
  dateTime : Option String := none
  damageDescription : Option String := none
  policyNumber : Option String := none
  driversLicense : Option String := none
  numberOfPassengers : Option Int := none
  wasDriving : Option Bool := none
  policeFiled : Option Bool := none
  policeReceipt : Option Bool := none
  involvedParties : List String := []
  otherPartyName : Option String := none
  otherPartyInsurance : Option String := none
deriving DecidableEq, Repr

/-- Result dictionary of `validate_required_fields`. -/
structure ValidationResult where
  is_valid : Bool
  missing_fields : List String
  ready_for_submission : Bool
deriving DecidableEq, Repr

/-- Embedding of `validate_required_fields` from `app/tools/validate_fields.py`:
missing keys are appended in source order; string-valued keys are checked with
Python truthiness (`not claim_data.get(...)`), the int/bool keys with
`is None`, `policeReceipt` only when `policeFiled is True`, and
`involvedParties` when the involved-parties list is empty and neither
other-party value is truthy. -/
def validate_required_fields (d : ClaimData) : ValidationResult :=
  let missing : List String :=
    (if strFalsy d.location then ["location"] else []) ++
    (if strFalsy d.dateTime then ["dateTime"] else []) ++
    (if strFalsy d.damageDescription then ["damageDescription"] else []) ++
    (if strFalsy d.policyNumber then ["policyNumber"] else []) ++
    (if strFalsy d.driversLicense then ["driversLicense"] else []) ++
    (if d.numberOfPassengers.isNone then ["numberOfPassengers"] else []) ++
    (if d.wasDriving.isNone then ["wasDriving"] else []) ++
    (if d.policeFiled.isNone then ["policeFiled"] else []) ++
    (if d.policeFiled = some true ∧ d.policeReceipt.isNone then ["policeReceipt"] else []) ++
    (if d.involvedParties.isEmpty ∧ strFalsy d.otherPartyName ∧ strFalsy d.otherPartyInsurance
      then ["involvedParties"] else [])
  { is_valid := missing.isEmpty
    missing_fields := missing
    ready_for_submission := missing.isEmpty }

/-! ## Datetime model — Python `datetime` values and the external
`dateutil.parser` as used by `parse_to_iso8601` in
`app/tools/extract_claim.py` -/

/-- A Python `datetime.datetime` value: calendar fields plus an optional
fixed UTC offset in minutes (`tzinfo is None` is embedded as
`tzOffset = none`). -/
structure PyDateTime where
  year : Nat
  month : Nat
  day : Nat
  hour : Nat
  minute : Nat
  second : Nat
  microsecond : Nat
  tzOffset : Option Int
deriving DecidableEq, Repr

/-- Range validity of a Python datetime (the constraints `datetime.datetime`
enforces; offsets are strictly less than 24 hours). -/
def PyDateTime.validB (dt : PyDateTime) : Bool :=
  1 ≤ dt.year && dt.year ≤ 9999 &&
  1 ≤ dt.month && dt.month ≤ 12 &&
  1 ≤ dt.day && dt.day ≤ 31 &&
  dt.hour ≤ 23 && dt.minute ≤ 59 && dt.second ≤ 59 &&
  dt.microsecond < 1000000 &&
  (match dt.tzOffset with
   | none => true
   | some off => off.natAbs < 1440)

/-- Zero-padded fixed-width decimal rendering, most significant digit
first: `padDigits 4 2024 = ['2','0','2','4']`. -/
def padDigits : Nat → Nat → List Char
  | 0, _ => []
  | w + 1, n => Nat.digitChar (n / 10 ^ w) :: padDigits w (n % 10 ^ w)

/-- Numeric value of a decimal digit character. -/
def digitVal (c : Char) : Nat := c.toNat - 48

/-- Accumulating parser consuming exactly `w` decimal digit characters. -/
def takeDigitsAux : Nat → Nat → List Char → Option (Nat × List Char)
  | acc, 0, l => some (acc, l)
  | _, _ + 1, [] => none
  | acc, w + 1, c :: l =>
      if c.isDigit then takeDigitsAux (acc * 10 + digitVal c) w l else none

/-- Parses exactly `w` decimal digits from the front of `l`. -/
def takeDigits (w : Nat) (l : List Char) : Option (Nat × List Char) :=
  takeDigitsAux 0 w l

/-- Consumes one expected character. -/
def expectChar (c : Char) : List Char → Option (List Char)
  | [] => none
  | x :: r => if x = c then some r else none

/-- Fractional-seconds rendering of `datetime.isoformat()`: microseconds are
printed as `.ffffff` only when nonzero. -/
def fracChars (us : Nat) : List Char :=
  if us = 0 then [] else '.' :: padDigits 6 us

/-- UTC-offset rendering of `datetime.isoformat()`: nothing for a naive
datetime, otherwise a sign and `HH:MM` of the absolute offset. -/
def offsetChars : Option Int → List Char
  | none => []
  | some off =>
      (if off < 0 then '-' else '+') ::
        (padDigits 2 (off.natAbs / 60) ++ (':' :: padDigits 2 (off.natAbs % 60)))

/-- Character-list form of Python `datetime.isoformat()` without the offset
suffix: `YYYY-MM-DDTHH:MM:SS[.ffffff]`. -/
def isoCore (dt : PyDateTime) : List Char :=
  padDigits 4 dt.year ++ ('-' ::
    (padDigits 2 dt.month ++ ('-' ::
      (padDigits 2 dt.day ++ ('T' ::
        (padDigits 2 dt.hour ++ (':' ::
          (padDigits 2 dt.minute ++ (':' ::
            (padDigits 2 dt.second ++ fracChars dt.microsecond))))))))))

/-- Character-list form of Python `datetime.isoformat()`:
`YYYY-MM-DDTHH:MM:SS[.ffffff][+HH:MM]`. -/
def isoChars (dt : PyDateTime) : List Char :=
  isoCore dt ++ offsetChars dt.tzOffset

/-- Python `datetime.isoformat()` as a string. -/
def isoformat (dt : PyDateTime) : String := String.mk (isoChars dt)

/-- Parses an optional fractional-seconds suffix: consumes `.ffffff` when the
next character is a dot, otherwise yields zero microseconds. -/
def parseFraction (l : List Char) : Option (Nat × List Char) :=
  match l with
  | [] => some (0, [])
  | c :: r => if c = '.' then takeDigits 6 r else some (0, l)

/-- Parses the offset suffix of an ISO-8601 string: empty means naive,
`Z` means UTC (offset 0, as `dateutil` maps `Z` to `tzutc()`), and a signed
`HH:MM` pair gives a fixed offset in minutes. -/
def parseOffset (l : List Char) : Option (Option Int) :=
  match l with
  | [] => some none
  | c :: r =>
    if c = 'Z' then
      if r = [] then some (some 0) else none
    else if c = '+' then
      match takeDigits 2 r with
      | none => none
      | some (oh, r1) =>
      match expectChar ':' r1 with
      | none => none
      | some r2 =>
      match takeDigits 2 r2 with
      | none => none
      | some (om, r3) =>
        if r3 = [] then some (some ((oh * 60 + om : Nat) : Int)) else none
    else if c = '-' then
      match takeDigits 2 r with
      | none => none
      | some (oh, r1) =>
      match expectChar ':' r1 with
      | none => none
      | some r2 =>
      match takeDigits 2 r2 with
      | none => none
      | some (om, r3) =>
        if r3 = [] then some (some (-((oh * 60 + om : Nat) : Int))) else none
    else none

/-- Parses a literal ISO-8601 datetime string
`YYYY-MM-DD[THH:MM:SS[.ffffff]][Z|+HH:MM|-HH:MM]`; a date with no time part
yields midnight, exactly as `dateutil.parser.parse` does on such input. -/
def parseISO (l : List Char) : Option PyDateTime :=
  match takeDigits 4 l with
  | none => none
  | some (y, r1) =>
  match expectChar '-' r1 with
  | none => none
  | some r2 =>
  match takeDigits 2 r2 with
  | none => none
  | some (mo, r3) =>
  match expectChar '-' r3 with
  | none => none
  | some r4 =>
  match takeDigits 2 r4 with
  | none => none
  | some (d, r5) =>
  match r5 with
  | [] => some ⟨y, mo, d, 0, 0, 0, 0, none⟩
  | c :: r6 =>
    if c = 'T' then
      match takeDigits 2 r6 with
      | none => none
      | some (h, r7) =>
      match expectChar ':' r7 with
      | none => none
      | some r8 =>
      match takeDigits 2 r8 with
      | none => none
      | some (mi, r9) =>
      match expectChar ':' r9 with
      | none => none
      | some r10 =>
      match takeDigits 2 r10 with
      | none => none
      | some (s, r11) =>
      match parseFraction r11 with
      | none => none
      | some (us, r12) =>
      match parseOffset r12 with
      | none => none
      | some tz => some ⟨y, mo, d, h, mi, s, us, tz⟩
    else none

/-- Decides whether a string is a literal ISO-8601 datetime of the canonical
shape accepted by `parseISO`. -/
def isCanonicalISO (s : String) : Bool := (parseISO s.data).isSome

/-- Outcome of a call to the external `dateutil.parser.parse`: either a
datetime value, or a failure (`ValueError`/`ParserError` or `TypeError`,
the exceptions `parse_to_iso8601` catches). -/
inductive PyParseOutcome where
  | ok (dt : PyDateTime)
  | failed
deriving DecidableEq, Repr

/-- Modelled behavior of the external `dateutil.parser.parse` on literal
ISO-8601 inputs: such strings parse to the corresponding datetime, with `Z`
mapped to a UTC `tzinfo` and a missing offset leaving the datetime naive.
Inputs outside this canonical shape (natural-language dates such as
"yesterday at 3pm") are outside the scope of this model and are mapped to
failure. -/
def dateutilParse (s : String) : PyParseOutcome :=
  match parseISO s.data with
  | some dt => PyParseOutcome.ok dt
  | none => PyParseOutcome.failed

/-- Embedding of `parse_to_iso8601` from `app/tools/extract_claim.py`,
parameterized by the behavior of the external datetime parser: on success it
returns `isoformat()` with a `Z` appended when the parsed datetime is naive;
on a caught parse failure it returns the original string unchanged. -/
def parse_to_iso8601 (parse : String → PyParseOutcome) (s : String) : String :=
  match parse s with
  | PyParseOutcome.ok dt =>
      if dt.tzOffset.isNone then isoformat dt ++ "Z" else isoformat dt
  | PyParseOutcome.failed => s

/-! ## ConversationContext and FieldExtractor —
`app/models/claim_schema.py` and `app/tools/extract_claim.py` -/

/-- Embedding of the `ConversationContext` pydantic model from
`app/models/claim_schema.py`, with the same defaults.  History entries are
(role, message) pairs; their timestamps are irrelevant to the claims. -/
structure ConversationContext where
  session_id : String
  safety_confirmed : Bool := false
  current_phase : String := "safety_check"
  occurrence_date_time : Option String := none
  location_description : Option String := none
  damage_description : Option String := none
  customer_id : Option String := none
  policy_id : Option String := none
  drivers_license : Option String := none
  license_plate : Option String := none
  number_of_passengers : Option Int := none
  was_driving : Option Bool := none
  police_filed : Option Bool := none
  police_receipt : Option Bool := none
  other_party_name : Option String := none
  other_party_insurance : Option String := none
  missing_fields : List String := []
  conversation_history : List (String × String) := []
deriving DecidableEq, Repr

/-- Embedding of `identify_missing_required_fields` from
`app/tools/extract_claim.py`: appends human-readable labels in source order.
The five string-valued fields are checked with Python truthiness
(`not context.field`), the int/bool fields with `is None`, and the police
receipt only when `police_filed is True`. -/
def identify_missing_required_fields (c : ConversationContext) : List String :=
  (if strFalsy c.occurrence_date_time then ["date and time of accident"] else []) ++
  (if strFalsy c.location_description then ["accident location"] else []) ++
  (if strFalsy c.damage_description then ["damage description"] else []) ++
  (if strFalsy c.policy_id then ["policy number"] else []) ++
  (if strFalsy c.drivers_license then ["driver\x27s license number"] else []) ++
  (if strFalsy c.license_plate then ["license plate number"] else []) ++
  (if c.number_of_passengers.isNone then ["number of passengers"] else []) ++
  (if c.was_driving.isNone then ["whether you were driving"] else []) ++
  (if c.police_filed.isNone then ["whether police report was filed"] else []) ++
  (if c.police_filed = some true ∧ c.police_receipt.isNone
    then ["whether you have the police report receipt"] else [])

/-- Argument record of `extract_claim_info`: fourteen optional fields plus
the session id, all defaulting to absent as in the source signature. -/
structure ExtractArgs where
  occurrence_date_time : Option String := none
  location_description : Option String := none
  damage_description : Option String := none
  policy_id : Option String := none
  drivers_license_number : Option String := none
  license_plate_number : Option String := none
  number_of_passengers : Option Int := none
  was_driving : Option Bool := none
  police_filed : Option Bool := none
  police_receipt_available : Option Bool := none
  other_party_first_name : Option String := none
  other_party_last_name : Option String := none
  other_party_insurance_company : Option String := none
  other_party_insurance_id : Option String := none
  session_id : String := "default"
deriving DecidableEq, Repr

/-- The `collected_fields` dictionary in the return value of
`extract_claim_info`. -/
structure CollectedFields where
  occurrence_date_time : Option String
  location : Option String
  damage : Option String
  policy_id : Option String
  drivers_license : Option String
  license_plate : Option String
  passengers : Option Int
  was_driving : Option Bool
  police_filed : Option Bool
  police_receipt : Option Bool
  other_party : Option String
  other_party_insurance : Option String
deriving DecidableEq, Repr

/-- Return dictionary of `extract_claim_info`. -/
structure ExtractResult where
  status : String
  collected_fields : CollectedFields
  missing_fields : List String
deriving DecidableEq, Repr

/-- The context-update portion of `extract_claim_info` (`extract_claim.py`
lines 139-177): each `if <arg> is not None` guard writes its own distinct
context field, so the sequential guards are embedded as one record update.
The occurrence datetime is normalized through `parse_to_iso8601`; the
other-party name is rebuilt from `f"{first} {last}".strip()` whenever either
half is supplied; `other_party_insurance_id` is accepted but never stored,
exactly as in the source. -/
def updateContext (a : ExtractArgs) (c : ConversationContext) : ConversationContext :=
  { c with
    occurrence_date_time :=
      match a.occurrence_date_time with
      | some v => some (parse_to_iso8601 dateutilParse v)
      | none => c.occurrence_date_time
    location_description :=
      match a.location_description with
      | some v => some v
      | none => c.location_description
    damage_description :=
      match a.damage_description with
      | some v => some v
      | none => c.damage_description
    policy_id :=
      match a.policy_id with
      | some v => some v
      | none => c.policy_id
    drivers_license :=
      match a.drivers_license_number with
      | some v => some v
      | none => c.drivers_license
    license_plate :=
      match a.license_plate_number with
      | some v => some v
      | none => c.license_plate
    number_of_passengers :=
      match a.number_of_passengers with
      | some v => some v
      | none => c.number_of_passengers
    was_driving :=
      match a.was_driving with
      | some v => some v
      | none => c.was_driving
    police_filed :=
      match a.police_filed with
      | some v => some v
      | none => c.police_filed
    police_receipt :=
      match a.police_receipt_available with
      | some v => some v
      | none => c.police_receipt
    other_party_name :=
      if a.other_party_first_name.isSome || a.other_party_last_name.isSome then
        some (((a.other_party_first_name.getD "") ++ " " ++
               (a.other_party_last_name.getD "")).trim)
      else c.other_party_name
    other_party_insurance :=
      match a.other_party_insurance_company with
      | some v => some v
      | none => c.other_party_insurance }

/-- Embedding of `extract_claim_info` from `app/tools/extract_claim.py`,
acting on the context of the call\x27s session: updates the non-null fields,
recomputes and stores `missing_fields`, and returns the updated context (the
one `save_conversation_context` persists) together with the structured
response. -/
def extract_claim_info (a : ExtractArgs) (c0 : ConversationContext) :
    ConversationContext × ExtractResult :=
  let c1 := updateContext a c0
  let missing := identify_missing_required_fields c1
  let c2 := { c1 with missing_fields := missing }
  (c2,
    { status := "updated"
      collected_fields :=
        { occurrence_date_time := c2.occurrence_date_time
          location := c2.location_description
          damage := c2.damage_description
          policy_id := c2.policy_id
          drivers_license := c2.drivers_license
          license_plate := c2.license_plate
          passengers := c2.number_of_passengers
          was_driving := c2.was_driving
          police_filed := c2.police_filed
          police_receipt := c2.police_receipt
          other_party := c2.other_party_name
          other_party_insurance := c2.other_party_insurance }
      missing_fields := missing })

/-- The checklist of spec §4.3(a) exactly as the claim states it, to be
compared with `identify_missing_required_fields`: the fixed order of labels
with a field counted as present iff its value is non-null, and the
police-receipt entry appearing iff `police_filed` is true and
`police_receipt` is null. -/
def specChecklistNonNull (c : ConversationContext) : List String :=
  (if c.occurrence_date_time = none then ["date and time of accident"] else []) ++
  (if c.location_description = none then ["accident location"] else []) ++
  (if c.damage_description = none then ["damage description"] else []) ++
  (if c.policy_id = none then ["policy number"] else []) ++
  (if c.drivers_license = none then ["driver\x27s license number"] else []) ++
  (if c.license_plate = none then ["license plate number"] else []) ++
  (if c.number_of_passengers = none then ["number of passengers"] else []) ++
  (if c.was_driving = none then ["whether you were driving"] else []) ++
  (if c.police_filed = none then ["whether police report was filed"] else []) ++
  (if c.police_filed = some true ∧ c.police_receipt = none
    then ["whether you have the police report receipt"] else [])

/-- The checklist of spec §4.3(a) amended to the presence notion the code
actually uses: a string field is present iff non-null and non-empty, an
int/bool field iff non-null, with the same fixed order and the same
conditional police-receipt entry. -/
def specChecklistAmended (c : ConversationContext) : List String :=
  (if c.occurrence_date_time = none ∨ c.occurrence_date_time = some ""
    then ["date and time of accident"] else []) ++
  (if c.location_description = none ∨ c.location_description = some ""
    then ["accident location"] else []) ++
  (if c.damage_description = none ∨ c.damage_description = some ""
    then ["damage description"] else []) ++
  (if c.policy_id = none ∨ c.policy_id = some ""
    then ["policy number"] else []) ++
  (if c.drivers_license = none ∨ c.drivers_license = some ""
    then ["driver\x27s license number"] else []) ++
  (if c.license_plate = none ∨ c.license_plate = some ""
    then ["license plate number"] else []) ++
  (if c.number_of_passengers = none then ["number of passengers"] else []) ++
  (if c.was_driving = none then ["whether you were driving"] else []) ++
  (if c.police_filed = none then ["whether police report was filed"] else []) ++
  (if c.police_filed = some true ∧ c.police_receipt = none
    then ["whether you have the police report receipt"] else [])

/-! ## ContextStore — `app/context.py` -/

/-- The module-level `_context_store` dict: an insertion-ordered association
list mapping a session id to its context and last-access time (seconds, as
returned by `time.time()`). -/
abbrev ContextStore := List (String × ConversationContext × ℚ)

/-- Session TTL from `app/context.py`: 30 minutes. -/
def SESSION_TTL_SECONDS : ℚ := 30 * 60

/-- Dictionary lookup in the store. -/
def storeLookup (st : ContextStore) (sid : String) :
    Option (ConversationContext × ℚ) :=
  (st.find? (fun e => e.1 = sid)).map (fun e => e.2)

/-- Store invariant provided by the Python dict: session-id keys are
pairwise distinct. -/
def NodupKeys (st : ContextStore) : Prop := (st.map (fun e => e.1)).Nodup

/-- Embedding of `get_conversation_context` from `app/context.py`: an
existing entry keeps its context but gets its last-access time refreshed;
a missing session id gets a freshly created all-defaults context stored at
the current time.  Returns the context together with the updated store. -/
def get_conversation_context (st : ContextStore) (sid : String) (now : ℚ) :
    ConversationContext × ContextStore :=
  match storeLookup st sid with
  | some (c, _) =>
      (c, st.map (fun e => if e.1 = sid then (e.1, e.2.1, now) else e))
  | none =>
      let c : ConversationContext := { session_id := sid }
      (c, st ++ [(sid, c, now)])

/-- Embedding of `save_conversation_context` from `app/context.py`: upserts
by `context.session_id` and refreshes the last-access time. -/
def save_conversation_context (st : ContextStore) (c : ConversationContext)
    (now : ℚ) : ContextStore :=
  if (st.find? (fun e => e.1 = c.session_id)).isSome then
    st.map (fun e => if e.1 = c.session_id then (e.1, c, now) else e)
  else
    st ++ [(c.session_id, c, now)]

/-- Predicate for an expired entry: last access more than the TTL before the
sweep time (`current_time - last_accessed > SESSION_TTL_SECONDS`). -/
def entryExpired (now : ℚ) (e : String × ConversationContext × ℚ) : Bool :=
  now - e.2.2 > SESSION_TTL_SECONDS

/-- Embedding of `cleanup_expired_sessions` from `app/context.py`: removes
every entry whose last access is more than the TTL before `now` and returns
the surviving store together with the number of removed sessions. -/
def cleanup_expired_sessions (st : ContextStore) (now : ℚ) :
    ContextStore × Nat :=
  (st.filter (fun e => !entryExpired now e), (st.filter (entryExpired now)).length)

/-! ## ClaimSubmitter — `app/tools/submit_fnol.py`, `submit_to_fnol_api` -/

/-- JSON body of an FNOL API response, as consulted by the source: the four
candidate reference fields, the two error-detail fields, and the `str(...)`
rendering used as last resort. -/
structure RespJson where
  claimId : Option String := none
  claimNumber : Option String := none
  referenceNumber : Option String := none
  id : Option String := none
  message : Option String := none
  error : Option String := none
  asString : String := ""
deriving DecidableEq, Repr

/-- Outcome of `response.json()`: a decoded body or a raised decoding
exception carrying its message. -/
inductive JsonOutcome where
  | ok (data : RespJson)
  | decodeError (msg : String)
deriving DecidableEq, Repr

/-- Outcome of the `get_sigv4_headers` call: signed headers (whose content
is irrelevant to the claims) or a raised exception message. -/
inductive SignOutcome where
  | ok
  | error (msg : String)
deriving DecidableEq, Repr

/-- Outcome of the `httpx` POST inside `submit_to_fnol_api`: a response
(status, JSON-decoding outcome of the body, raw text), a timeout, a network
error, or any other exception raised inside the `try` block. -/
inductive HttpOutcome where
  | resp (status : Nat) (body : JsonOutcome) (text : String)
  | timeout
  | requestError (msg : String)
  | unexpectedError (msg : String)
deriving DecidableEq, Repr

/-- Result dictionary of `submit_to_fnol_api`; keys absent from a given
Python return dict are embedded as `none`. -/
structure SubmitResult (P : Type) where
  success : Bool
  claimNumber : Option String := none
  payload : Option P := none
  message : String
  error : Option String := none
deriving DecidableEq, Repr

/-- Embedding of `submit_to_fnol_api` from `app/tools/submit_fnol.py` over
the outcomes of its effects: the configured endpoint (`os.getenv`), the
SigV4-signing attempt, the HTTP call, and the `utcnow` timestamp used for a
fallback reference.  Every branch of the source returns a result dictionary;
a JSON-decoding failure on a 200 response is caught by the final
`except Exception` branch. -/
def submit_to_fnol_api {P : Type} (payload : P) (endpoint : Option String)
    (signing : SignOutcome) (http : HttpOutcome) (nowstamp : String) :
    SubmitResult P :=
  if strFalsy endpoint then
    { success := false
      error := some "FNOL API endpoint not configured"
      message := "System configuration error. Please contact support." }
  else
    match signing with
    | SignOutcome.error e =>
        { success := false
          error := some ("Failed to generate authentication headers: " ++ e)
          message := "Authentication error. Please contact support." }
    | SignOutcome.ok =>
      match http with
      | HttpOutcome.resp status body text =>
        if status = 200 then
          match body with
          | JsonOutcome.ok data =>
              let ref := pyOrDefault
                (pyOrStr (pyOrStr (pyOrStr data.claimId data.claimNumber)
                  data.referenceNumber) data.id)
                ("FNOL-" ++ nowstamp)
              { success := true
                claimNumber := some ref
                payload := some payload
                message := "Your claim has been submitted successfully. Your reference number is " ++ ref ++ ". You\x27ll receive a confirmation email with your official claim number shortly." }
          | JsonOutcome.decodeError e =>
              { success := false
                error := some ("Unexpected error: " ++ e)
                message := "An unexpected error occurred. Please try again or contact support." }
        else
          let detail :=
            match body with
            | JsonOutcome.ok data => pyOrDefault (pyOrStr data.message data.error) data.asString
            | JsonOutcome.decodeError _ => if text = "" then "HTTP " ++ toString status else text
          { success := false
            error := some ("FNOL API returned error: " ++ detail)
            message := "Failed to submit claim. Please try again or use the form-based submission." }
      | HttpOutcome.timeout =>
          { success := false
            error := some "Request timeout"
            message := "The claim submission timed out. Please try again." }
      | HttpOutcome.requestError e =>
          { success := false
            error := some ("Network error: " ++ e)
            message := "Unable to connect to the claims service. Please check your connection and try again." }
      | HttpOutcome.unexpectedError e =>
          { success := false
            error := some ("Unexpected error: " ++ e)
            message := "An unexpected error occurred. Please try again or contact support." }

/-! ## LocationParser — spec §4.4 -/

/-- Structured location produced by the parser (spec §3,
`StructuredLocation`): country defaults to "USA", the other structured
fields default to empty, and `road` carries the original free text. -/
structure StructuredLocation where
  country : String := "USA"
  state : String := ""
  city : String := ""
  zip : String := ""
  road : String := ""
deriving DecidableEq, Repr

/-- Splits a character list on spaces, accumulating the current token in
reverse; mirrors `text.split(" ")`. -/
def wordsAux : List Char → List Char → List (List Char)
  | [], acc => [acc.reverse]
  | c :: r, acc => if c = ' ' then acc.reverse :: wordsAux r [] else wordsAux r (c :: acc)

/-- Tokens of the free text, split on single spaces. -/
def splitTokens (s : String) : List String :=
  (wordsAux s.data []).map String.mk

/-- Joins tokens with single spaces. -/
def joinSpaces : List String → String
  | [] => ""
  | [t] => t
  | t :: rest => t ++ " " ++ joinSpaces rest

/-- Removes one trailing comma from a token. -/
def stripComma (t : String) : String :=
  match t.data.reverse with
  | [] => t
  | c :: rest => if c = ',' then String.mk rest.reverse else t

/-- A token that is exactly five decimal digits. -/
def isZipToken (t : String) : Bool :=
  t.data.length = 5 && t.data.all (fun c => c.isDigit)

/-- A bare token of exactly two uppercase letters. -/
def isStateToken (t : String) : Bool :=
  t.data.length = 2 && t.data.all (fun c => c.isUpper)

/-- A capitalized word: an uppercase letter followed by lowercase letters. -/
def isCapWord (t : String) : Bool :=
  match t.data with
  | [] => false
  | c :: rest => c.isUpper && rest.all (fun x => x.isLower)

/-- Modelled from the spec: the `LocationParser` of §4.4 is not among the
source files under `src/` (the checked-in voice agent receives an already
structured location in `submit_to_fnol_api`), so it is modelled from the
spec\x27s words — scan the free text for a five-digit sequence as ZIP and a
bare two-uppercase-letter token as state; when a state token was found,
capture the capitalized word sequence immediately preceding it (optionally
followed by a comma) as the city; always retain the full original text as
`road`; never error, leaving state/city/zip empty on no matches. -/
def parse_location (text : String) : StructuredLocation :=
  let toks := splitTokens text
  let zip :=
    match toks.find? (fun t => isZipToken (stripComma t)) with
    | some t => stripComma t
    | none => ""
  let sc :=
    match toks.findIdx? (fun t => isStateToken (stripComma t)) with
    | some i =>
        let state := stripComma ((toks.get? i).getD "")
        let cityToks := ((toks.take i).reverse.takeWhile
          (fun t => isCapWord (stripComma t))).reverse
        (state, joinSpaces (cityToks.map stripComma))
    | none => ("", "")
  { state := sc.1, city := sc.2, zip := zip, road := text }

/-! ## Helper lemmas -/

/-- Membership in a conditional singleton segment of a missing-fields list. -/
theorem mem_ite_singleton {x y : String} (c : Prop) [Decidable c] :
    x ∈ (if c then [y] else []) ↔ (c ∧ x = y) := by
  split <;> simp_all

/-- Python truthiness of an optional string, unfolded to the two falsy
values. -/
theorem strFalsy_iff (o : Option String) :
    strFalsy o = true ↔ (o = none ∨ o = some "") := by
  cases o with
  | none => simp [strFalsy]
  | some s => simp [strFalsy, String.isEmpty_iff]

/-- Conditional singleton segments agree when their conditions are
equivalent. -/
theorem ite_singleton_congr {c d : Prop} [Decidable c] [Decidable d]
    (h : c ↔ d) (lbl : List String) :
    (if c then lbl else []) = (if d then lbl else []) := by
  by_cases hc : c
  · rw [if_pos hc, if_pos (h.mp hc)]
  · rw [if_neg hc, if_neg (fun hd => hc (h.mpr hd))]

/-! ## Theorems -/

/-- C4: `assess_safety` implements the strict priority order on its boolean
inputs — medical need yields (false, emergency guidance) regardless of the
other flags; otherwise an unsafe location yields (false, relocation
guidance); otherwise missing police contact yields (true, police
recommendation); otherwise (true, proceed guidance). -/
theorem assess_safety_priority (s m p l : Bool) :
    (m = true → assess_safety s m p l =
      { safety_confirmed := false, guidance := medicalGuidance }) ∧
    (m = false → l = false → assess_safety s m p l =
      { safety_confirmed := false, guidance := relocationGuidance }) ∧
    (m = false → l = true → p = false → assess_safety s m p l =
      { safety_confirmed := true, guidance := policeRecommendationGuidance }) ∧
    (m = false → l = true → p = true → assess_safety s m p l =
      { safety_confirmed := true, guidance := proceedGuidance }) := by
  refine ⟨?_, ?_, ?_, ?_⟩ <;> intros <;> subst_vars <;> simp [assess_safety]

/-- Witness for C4: the four priority cases at concrete inputs, including
medical need overriding every other flag. -/
theorem assess_safety_priority_witness :
    assess_safety true true true true =
      { safety_confirmed := false, guidance := medicalGuidance } ∧
    assess_safety false false false false =
      { safety_confirmed := false, guidance := relocationGuidance } ∧
    assess_safety true false false true =
      { safety_confirmed := true, guidance := policeRecommendationGuidance } ∧
    assess_safety true false true true =
      { safety_confirmed := true, guidance := proceedGuidance } :=
  ⟨(assess_safety_priority true true true true).1 rfl,
   (assess_safety_priority false false false false).2.1 rfl rfl,
   (assess_safety_priority true false false true).2.2.1 rfl rfl rfl,
   (assess_safety_priority true false true true).2.2.2 rfl rfl rfl⟩

/-- C10: the output of `assess_safety` is independent of its `is_safe`
argument — flipping it while fixing the other three flags yields the
identical result pair. -/
theorem assess_safety_independent_of_is_safe (m p l : Bool) :
    assess_safety true m p l = assess_safety false m p l := rfl

/-- C3: `validate_required_fields` returns `is_valid` true iff the missing
list is empty, `ready_for_submission` identical to `is_valid`, reports
`policeReceipt` missing iff `policeFiled` is true with a null receipt,
reports `involvedParties` missing iff the involved-parties list is empty and
both other-party values are absent (Python-falsy), and on the empty map
returns invalid with every required key missing including
`involvedParties`. -/
theorem validate_required_fields_spec (d : ClaimData) :
    ((validate_required_fields d).is_valid = true ↔
      (validate_required_fields d).missing_fields = []) ∧
    (validate_required_fields d).ready_for_submission =
      (validate_required_fields d).is_valid ∧
    ("policeReceipt" ∈ (validate_required_fields d).missing_fields ↔
      (d.policeFiled = some true ∧ d.policeReceipt = none)) ∧
    ("involvedParties" ∈ (validate_required_fields d).missing_fields ↔
      (d.involvedParties = [] ∧
        (d.otherPartyName = none ∨ d.otherPartyName = some "") ∧
        (d.otherPartyInsurance = none ∨ d.otherPartyInsurance = some ""))) ∧
    validate_required_fields {} =
      { is_valid := false
        missing_fields := ["location", "dateTime", "damageDescription",
          "policyNumber", "driversLicense", "numberOfPassengers", "wasDriving",
          "policeFiled", "involvedParties"]
        ready_for_submission := false } := by
  refine ⟨?_, rfl, ?_, ?_, by decide⟩
  · exact List.isEmpty_iff
  · simp only [validate_required_fields, List.mem_append, mem_ite_singleton,
      Option.isNone_iff_eq_none]
    simp [strFalsy_iff]
  · simp only [validate_required_fields, List.mem_append, mem_ite_singleton,
      Option.isNone_iff_eq_none]
    simp [strFalsy_iff, List.isEmpty_iff]

/-- C9: the location parser always retains the full original text as `road`,
extracts `85001` as zip and `AZ` as state from the example input, and on
input with no recognizable state or zip leaves all structured fields
empty with the original text as road. -/
theorem parse_location_spec :
    (∀ text : String, (parse_location text).road = text) ∧
    (parse_location "Accident near Main St, Phoenix AZ 85001").zip = "85001" ∧
    (parse_location "Accident near Main St, Phoenix AZ 85001").state = "AZ" ∧
    (parse_location "Accident near Main St, Phoenix AZ 85001").road =
      "Accident near Main St, Phoenix AZ 85001" ∧
    (parse_location "accident on the highway").state = "" ∧
    (parse_location "accident on the highway").city = "" ∧
    (parse_location "accident on the highway").zip = "" ∧
    (parse_location "accident on the highway").road = "accident on the highway" := by
  refine ⟨fun text => rfl, ?_, ?_, rfl, ?_, ?_, ?_, rfl⟩ <;> decide

/-- C1: partial-update semantics of `extract_claim_info` — on any call (and
hence on each call of any sequence on one session), every context field is
overwritten exactly when its corresponding argument is non-null, and a field
whose arguments are all null keeps exactly its previously stored value; the
never-stored `other_party_insurance_id` argument has no effect at all. -/
theorem extract_claim_info_partial_update (a : ExtractArgs) (c : ConversationContext) :
    ((a.occurrence_date_time = none →
        (extract_claim_info a c).1.occurrence_date_time = c.occurrence_date_time) ∧
     (∀ v, a.occurrence_date_time = some v →
        (extract_claim_info a c).1.occurrence_date_time =
          some (parse_to_iso8601 dateutilParse v))) ∧
    ((a.location_description = none →
        (extract_claim_info a c).1.location_description = c.location_description) ∧
     (∀ v, a.location_description = some v →
        (extract_claim_info a c).1.location_description = some v)) ∧
    ((a.damage_description = none →
        (extract_claim_info a c).1.damage_description = c.damage_description) ∧
     (∀ v, a.damage_description = some v →
        (extract_claim_info a c).1.damage_description = some v)) ∧
    ((a.policy_id = none → (extract_claim_info a c).1.policy_id = c.policy_id) ∧
     (∀ v, a.policy_id = some v → (extract_claim_info a c).1.policy_id = some v)) ∧
    ((a.drivers_license_number = none →
        (extract_claim_info a c).1.drivers_license = c.drivers_license) ∧
     (∀ v, a.drivers_license_number = some v →
        (extract_claim_info a c).1.drivers_license = some v)) ∧
    ((a.license_plate_number = none →
        (extract_claim_info a c).1.license_plate = c.license_plate) ∧
     (∀ v, a.license_plate_number = some v →
        (extract_claim_info a c).1.license_plate = some v)) ∧
    ((a.number_of_passengers = none →
        (extract_claim_info a c).1.number_of_passengers = c.number_of_passengers) ∧
     (∀ v, a.number_of_passengers = some v →
        (extract_claim_info a c).1.number_of_passengers = some v)) ∧
    ((a.was_driving = none → (extract_claim_info a c).1.was_driving = c.was_driving) ∧
     (∀ v, a.was_driving = some v → (extract_claim_info a c).1.was_driving = some v)) ∧
    ((a.police_filed = none → (extract_claim_info a c).1.police_filed = c.police_filed) ∧
     (∀ v, a.police_filed = some v → (extract_claim_info a c).1.police_filed = some v)) ∧
    ((a.police_receipt_available = none →
        (extract_claim_info a c).1.police_receipt = c.police_receipt) ∧
     (∀ v, a.police_receipt_available = some v →
        (extract_claim_info a c).1.police_receipt = some v)) ∧
    ((a.other_party_first_name = none → a.other_party_last_name = none →
        (extract_claim_info a c).1.other_party_name = c.other_party_name) ∧
     ((a.other_party_first_name.isSome ∨ a.other_party_last_name.isSome) →
        (extract_claim_info a c).1.other_party_name =
          some (((a.other_party_first_name.getD "") ++ " " ++
                 (a.other_party_last_name.getD "")).trim))) ∧
    ((a.other_party_insurance_company = none →
        (extract_claim_info a c).1.other_party_insurance = c.other_party_insurance) ∧
     (∀ v, a.other_party_insurance_company = some v →
        (extract_claim_info a c).1.other_party_insurance = some v)) ∧
    (∀ v, extract_claim_info { a with other_party_insurance_id := v } c =
        extract_claim_info a c) := by
  refine ⟨⟨?_, ?_⟩, ⟨?_, ?_⟩, ⟨?_, ?_⟩, ⟨?_, ?_⟩, ⟨?_, ?_⟩, ⟨?_, ?_⟩, ⟨?_, ?_⟩,
    ⟨?_, ?_⟩, ⟨?_, ?_⟩, ⟨?_, ?_⟩, ⟨?_, ?_⟩, ⟨?_, ?_⟩, fun v => rfl⟩ <;>
    intros <;> simp_all [extract_claim_info, updateContext]

/-- Witness for C1: one call supplying every argument overwrites every
field, and one call supplying no argument leaves a fully populated context
unchanged. -/
theorem extract_claim_info_partial_update_witness :
    ((extract_claim_info
        { occurrence_date_time := some "2024-05-15T15:30:00+00:00"
          location_description := some "I-10 near exit 5"
          damage_description := some "rear bumper dent"
          policy_id := some "POL-1"
          drivers_license_number := some "D123"
          license_plate_number := some "ABC123"
          number_of_passengers := some 2
          was_driving := some true
          police_filed := some true
          police_receipt_available := some false
          other_party_first_name := some "John"
          other_party_last_name := some "Doe"
          other_party_insurance_company := some "Acme"
          other_party_insurance_id := some "X1" }
        { session_id := "s" }).1.policy_id = some "POL-1" ∧
     (extract_claim_info
        { occurrence_date_time := some "2024-05-15T15:30:00+00:00"
          location_description := some "I-10 near exit 5"
          damage_description := some "rear bumper dent"
          policy_id := some "POL-1"
          drivers_license_number := some "D123"
          license_plate_number := some "ABC123"
          number_of_passengers := some 2
          was_driving := some true
          police_filed := some true
          police_receipt_available := some false
          other_party_first_name := some "John"
          other_party_last_name := some "Doe"
          other_party_insurance_company := some "Acme"
          other_party_insurance_id := some "X1" }
        { session_id := "s" }).1.occurrence_date_time =
       some (parse_to_iso8601 dateutilParse "2024-05-15T15:30:00+00:00") ∧
     (extract_claim_info
        { occurrence_date_time := some "2024-05-15T15:30:00+00:00"
          location_description := some "I-10 near exit 5"
          damage_description := some "rear bumper dent"
          policy_id := some "POL-1"
          drivers_license_number := some "D123"
          license_plate_number := some "ABC123"
          number_of_passengers := some 2
          was_driving := some true
          police_filed := some true
          police_receipt_available := some false
          other_party_first_name := some "John"
          other_party_last_name := some "Doe"
          other_party_insurance_company := some "Acme"
          other_party_insurance_id := some "X1" }
        { session_id := "s" }).1.other_party_name =
       some ((((some "John" : Option String).getD "") ++ " " ++
              ((some "Doe" : Option String).getD "")).trim)) ∧
    ((extract_claim_info {} { session_id := "s", policy_id := some "KEEP" }).1.policy_id =
       some "KEEP" ∧
     (extract_claim_info {} { session_id := "s", other_party_name := some "Old Name" }).1.other_party_name =
       some "Old Name") := by
  refine ⟨⟨?_, ?_, ?_⟩, ?_, ?_⟩
  · exact (extract_claim_info_partial_update _ _).2.2.2.1.2 "POL-1" rfl
  · exact (extract_claim_info_partial_update _ _).1.2 "2024-05-15T15:30:00+00:00" rfl
  · exact (extract_claim_info_partial_update _ _).2.2.2.2.2.2.2.2.2.2.1.2 (Or.inl rfl)
  · exact (extract_claim_info_partial_update _ _).2.2.2.1.1 rfl
  · exact (extract_claim_info_partial_update _ _).2.2.2.2.2.2.2.2.2.2.1.1 rfl rfl

/-- Counterexample for C2: storing an empty-string damage description (a
non-null value) makes the code report "damage description" as missing, while
the non-null presence notion of the claim counts it as present, so the
returned `missing_fields` differs from the claimed checklist. -/
theorem extract_missing_fields_nonnull_counterexample :
    (extract_claim_info { damage_description := some "" }
        { session_id := "s" }).2.missing_fields ≠
      specChecklistNonNull
        (extract_claim_info { damage_description := some "" }
          { session_id := "s" }).1 := by
  decide

/-- Helper for C2: the code checklist equals the amended spec checklist on
every context. -/
theorem identify_eq_specChecklistAmended (c : ConversationContext) :
    identify_missing_required_fields c = specChecklistAmended c := by
  simp only [identify_missing_required_fields, specChecklistAmended]
  rw [ite_singleton_congr (strFalsy_iff c.occurrence_date_time),
    ite_singleton_congr (strFalsy_iff c.location_description),
    ite_singleton_congr (strFalsy_iff c.damage_description),
    ite_singleton_congr (strFalsy_iff c.policy_id),
    ite_singleton_congr (strFalsy_iff c.drivers_license),
    ite_singleton_congr (strFalsy_iff c.license_plate),
    ite_singleton_congr (Option.isNone_iff_eq_none (o := c.number_of_passengers)),
    ite_singleton_congr (Option.isNone_iff_eq_none (o := c.was_driving)),
    ite_singleton_congr (Option.isNone_iff_eq_none (o := c.police_filed)),
    ite_singleton_congr (and_congr_right fun _ =>
      Option.isNone_iff_eq_none (o := c.police_receipt))]

/-- C2 (amended): the `missing_fields` list returned by
`extract_claim_info` — and the one stored on the context — equals the
§4.3(a) checklist evaluated against the current stored context in the fixed
order, where a string field is present iff non-null and non-empty, an
int/bool field iff non-null, and the police-receipt entry appears iff
`police_filed` is true and `police_receipt` is null. -/
theorem extract_missing_fields_eq_amended_checklist (a : ExtractArgs)
    (c : ConversationContext) :
    (extract_claim_info a c).2.missing_fields =
      specChecklistAmended (extract_claim_info a c).1 ∧
    (extract_claim_info a c).1.missing_fields =
      specChecklistAmended (extract_claim_info a c).1 := by
  have h : specChecklistAmended (extract_claim_info a c).1 =
      specChecklistAmended (updateContext a c) := rfl
  rw [h]
  exact ⟨(identify_eq_specChecklistAmended (updateContext a c)).symm ▸ rfl,
    (identify_eq_specChecklistAmended (updateContext a c)).symm ▸ rfl⟩

/-- Lookup in a filtered store: with pairwise-distinct keys, the entry found
for a key in the filtered store is the original entry when it passes the
filter, and nothing otherwise. -/
theorem find?_key_filter (st : ContextStore) (hn : NodupKeys st) (sid : String)
    (p : String × ConversationContext × ℚ → Bool) :
    (st.filter p).find? (fun e => e.1 = sid) =
      (st.find? (fun e => e.1 = sid)).bind (fun e => if p e then some e else none) := by
  induction st with
  | nil => rfl
  | cons e rest ih =>
    have hn2 := List.nodup_cons.mp hn
    by_cases he : e.1 = sid
    · have hrest : rest.find? (fun x => decide (x.1 = sid)) = none := by
        rw [List.find?_eq_none]
        intro x hx
        simp only [decide_eq_true_eq]
        intro hxs
        have hx1 : x.1 ∈ rest.map (fun y => y.1) :=
          List.mem_map_of_mem (fun y => y.1) hx
        rw [hxs, ← he] at hx1
        exact hn2.1 hx1
      have hfil : (rest.filter p).find? (fun x => decide (x.1 = sid)) = none :=
        List.find?_eq_none.mpr
          (fun x hx => List.find?_eq_none.mp hrest x (List.mem_of_mem_filter hx))
      cases hp : p e with
      | false => simp [List.filter_cons, hp, List.find?_cons, he, hfil]
      | true => simp [List.filter_cons, hp, List.find?_cons, he]
    · cases hp : p e with
      | false =>
          simp only [List.filter_cons, hp, List.find?_cons, he, decide_eq_false_iff_not,
            Bool.false_eq_true, if_false]
          exact ih hn2.2
      | true =>
          simp only [List.filter_cons, hp, List.find?_cons, he, decide_eq_false_iff_not,
            Bool.false_eq_true, if_true]
          exact ih hn2.2

/-- Filtering with a predicate and with its negation partitions the store. -/
theorem store_length_filter_split (p : (String × ConversationContext × ℚ) → Bool)
    (l : ContextStore) :
    (l.filter (fun e => !p e)).length + (l.filter p).length = l.length := by
  induction l with
  | nil => rfl
  | cons a l ih =>
      cases hp : p a <;> simp [List.filter_cons, hp] <;> omega

/-- Refreshing the timestamp of the entries keyed `sid` commutes with the
key lookup (`get_conversation_context` update shape). -/
theorem find?_get_refresh (st : ContextStore) (sid : String) (now : ℚ) :
    (st.map (fun e => if e.1 = sid then (e.1, e.2.1, now) else e)).find?
        (fun e => e.1 = sid) =
      (st.find? (fun e => e.1 = sid)).map (fun e => (e.1, e.2.1, now)) := by
  induction st with
  | nil => rfl
  | cons e rest ih =>
      by_cases he : e.1 = sid
      · simp [List.find?_cons, he]
      · simp [List.find?_cons, he, ih]

/-- Replacing the context of the entries keyed `sid` commutes with the key
lookup (`save_conversation_context` update shape). -/
theorem find?_save_refresh (st : ContextStore) (sid : String)
    (c : ConversationContext) (now : ℚ) :
    (st.map (fun e => if e.1 = sid then (e.1, c, now) else e)).find?
        (fun e => e.1 = sid) =
      (st.find? (fun e => e.1 = sid)).map (fun e => (e.1, c, now)) := by
  induction st with
  | nil => rfl
  | cons e rest ih =>
      by_cases he : e.1 = sid
      · simp [List.find?_cons, he]
      · simp [List.find?_cons, he, ih]

/-- The key sequence is unchanged by a key-preserving entry update. -/
theorem keys_map_get_refresh (st : ContextStore) (sid : String) (now : ℚ) :
    (st.map (fun e => if e.1 = sid then (e.1, e.2.1, now) else e)).map
        (fun e => e.1) = st.map (fun e => e.1) := by
  induction st with
  | nil => rfl
  | cons e rest ih => by_cases he : e.1 = sid <;> simp [he, ih]

/-- The key sequence is unchanged by a key-preserving context replacement. -/
theorem keys_map_save_refresh (st : ContextStore) (sid : String)
    (c : ConversationContext) (now : ℚ) :
    (st.map (fun e => if e.1 = sid then (e.1, c, now) else e)).map
        (fun e => e.1) = st.map (fun e => e.1) := by
  induction st with
  | nil => rfl
  | cons e rest ih => by_cases he : e.1 = sid <;> simp [he, ih]

/-- Appending a fresh key preserves key distinctness. -/
theorem nodupKeys_append_new (st : ContextStore) (sid : String)
    (x : ConversationContext × ℚ) (hn : NodupKeys st)
    (hf : st.find? (fun e => e.1 = sid) = none) :
    NodupKeys (st ++ [(sid, x.1, x.2)]) := by
  unfold NodupKeys
  rw [List.map_append, List.nodup_append]
  refine ⟨hn, List.nodup_singleton sid, ?_⟩
  intro a ha hb
  rcases List.mem_map.mp ha with ⟨e, he, hkey⟩
  rcases List.mem_singleton.mp hb with rfl
  have hnk := List.find?_eq_none.mp hf e he
  simp only [decide_eq_true_eq] at hnk
  exact hnk hkey

/-- Key distinctness is preserved by `get_conversation_context`. -/
theorem nodupKeys_get (st : ContextStore) (sid : String) (now : ℚ)
    (hn : NodupKeys st) :
    NodupKeys (get_conversation_context st sid now).2 := by
  unfold get_conversation_context
  cases hl : storeLookup st sid with
  | some ct =>
      obtain ⟨c, t⟩ := ct
      simpa only [NodupKeys, keys_map_get_refresh] using hn
  | none =>
      have hf : st.find? (fun e => e.1 = sid) = none := by
        unfold storeLookup at hl
        exact Option.map_eq_none'.mp hl
      exact nodupKeys_append_new st sid ({ session_id := sid }, now) hn hf

/-- Key distinctness is preserved by `save_conversation_context`. -/
theorem nodupKeys_save (st : ContextStore) (c : ConversationContext) (now : ℚ)
    (hn : NodupKeys st) :
    NodupKeys (save_conversation_context st c now) := by
  unfold save_conversation_context
  by_cases hf : (st.find? (fun e => e.1 = c.session_id)).isSome
  · rw [if_pos hf]
    simpa only [NodupKeys, keys_map_save_refresh] using hn
  · rw [if_neg hf]
    exact nodupKeys_append_new st c.session_id (c, now) hn
      (Option.not_isSome_iff_eq_none.mp hf)

/-- After `get_conversation_context`, the returned context is stored under
the session id with an access time equal to the call time. -/
theorem storeLookup_get (st : ContextStore) (sid : String) (now : ℚ) :
    storeLookup (get_conversation_context st sid now).2 sid =
      some ((get_conversation_context st sid now).1, now) := by
  cases hl : storeLookup st sid with
  | some ct =>
      obtain ⟨c, t⟩ := ct
      simp only [get_conversation_context, hl]
      unfold storeLookup
      rw [find?_get_refresh]
      unfold storeLookup at hl
      cases hf : st.find? (fun e => e.1 = sid) with
      | none => rw [hf] at hl; exact absurd hl (by simp)
      | some e =>
          rw [hf] at hl
          have h2 : e.2 = (c, t) := by simpa using hl
          simp [Option.map_some', h2]
  | none =>
      have hf : st.find? (fun e => e.1 = sid) = none := by
        unfold storeLookup at hl
        exact Option.map_eq_none'.mp hl
      simp only [get_conversation_context, hl]
      unfold storeLookup
      rw [List.find?_append, hf]
      simp [List.find?_cons]

/-- After `save_conversation_context`, the saved context is stored under its
session id with an access time equal to the call time. -/
theorem storeLookup_save (st : ContextStore) (c : ConversationContext) (now : ℚ) :
    storeLookup (save_conversation_context st c now) c.session_id =
      some (c, now) := by
  unfold save_conversation_context
  by_cases hf : (st.find? (fun e => e.1 = c.session_id)).isSome
  · rw [if_pos hf]
    unfold storeLookup
    rw [find?_save_refresh]
    rcases Option.isSome_iff_exists.mp hf with ⟨e, he⟩
    rw [he]
    simp
  · rw [if_neg hf]
    unfold storeLookup
    rw [List.find?_append, Option.not_isSome_iff_eq_none.mp hf]
    simp [List.find?_cons]

/-- Lookup after a sweep: an entry survives with its data exactly when it
was stored before and its last access is within the TTL. -/
theorem cleanup_lookup (st : ContextStore) (now : ℚ) (hn : NodupKeys st)
    (sid : String) (c : ConversationContext) (t : ℚ) :
    storeLookup (cleanup_expired_sessions st now).1 sid = some (c, t) ↔
      (storeLookup st sid = some (c, t) ∧ now - t ≤ SESSION_TTL_SECONDS) := by
  unfold cleanup_expired_sessions storeLookup
  rw [find?_key_filter st hn sid _]
  cases hf : st.find? (fun e => decide (e.1 = sid)) with
  | none => simp
  | some e =>
      obtain ⟨k, c', t'⟩ := e
      rw [Option.some_bind]
      by_cases hexp : now - t' > SESSION_TTL_SECONDS
      · rw [if_neg (by simp [entryExpired, hexp])]
        simp only [Option.map_none', Option.map_some']
        constructor
        · intro h; exact absurd h (by simp)
        · rintro ⟨h1, h2⟩
          obtain ⟨rfl, rfl⟩ : c' = c ∧ t' = t := by
            simpa [Prod.ext_iff] using h1
          linarith
      · rw [if_pos (by simp [entryExpired, hexp])]
        simp only [Option.map_some']
        constructor
        · intro h
          obtain ⟨rfl, rfl⟩ : c' = c ∧ t' = t := by
            simpa [Prod.ext_iff] using h
          exact ⟨rfl, le_of_not_lt hexp⟩
        · rintro ⟨h1, _⟩
          simpa [Prod.ext_iff] using h1

/-- C8: `cleanup_expired_sessions` removes exactly the contexts whose last
access is more than 30 minutes before the sweep and returns the number
removed; a context whose last access (refreshed by `get` or `save`) is
within the TTL survives the sweep and remains retrievable. -/
theorem context_store_ttl_sweep (st : ContextStore) (now : ℚ)
    (hn : NodupKeys st) :
    ((cleanup_expired_sessions st now).1.length +
        (cleanup_expired_sessions st now).2 = st.length) ∧
    ((cleanup_expired_sessions st now).2 =
        (st.filter (entryExpired now)).length) ∧
    (∀ sid c t, storeLookup (cleanup_expired_sessions st now).1 sid = some (c, t) ↔
      (storeLookup st sid = some (c, t) ∧ now - t ≤ SESSION_TTL_SECONDS)) ∧
    (∀ sid tacc, now - tacc ≤ SESSION_TTL_SECONDS →
      storeLookup (cleanup_expired_sessions
          (get_conversation_context st sid tacc).2 now).1 sid =
        some ((get_conversation_context st sid tacc).1, tacc)) ∧
    (∀ c tacc, now - tacc ≤ SESSION_TTL_SECONDS →
      storeLookup (cleanup_expired_sessions
          (save_conversation_context st c tacc) now).1 c.session_id =
        some (c, tacc)) := by
  refine ⟨store_length_filter_split (entryExpired now) st, rfl,
    fun sid c t => cleanup_lookup st now hn sid c t, ?_, ?_⟩
  · intro sid tacc htacc
    exact (cleanup_lookup (get_conversation_context st sid tacc).2 now
      (nodupKeys_get st sid tacc hn) sid _ tacc).mpr
      ⟨storeLookup_get st sid tacc, htacc⟩
  · intro c tacc htacc
    exact (cleanup_lookup (save_conversation_context st c tacc) now
      (nodupKeys_save st c tacc hn) c.session_id c tacc).mpr
      ⟨storeLookup_save st c tacc, htacc⟩

/-- Witness for C8: on a concrete two-session store swept at time 2000, the
session last accessed at time 0 is expired (count 1) and the session last
accessed at time 1000 survives and is still retrievable. -/
theorem context_store_ttl_sweep_witness :
    (cleanup_expired_sessions
        [("a", { session_id := "a" }, (0 : ℚ)), ("b", { session_id := "b" }, 1000)]
        2000).1.length +
      (cleanup_expired_sessions
        [("a", { session_id := "a" }, (0 : ℚ)), ("b", { session_id := "b" }, 1000)]
        2000).2 = 2 ∧
    (storeLookup (cleanup_expired_sessions
        [("a", { session_id := "a" }, (0 : ℚ)), ("b", { session_id := "b" }, 1000)]
        2000).1 "b" = some ({ session_id := "b" }, 1000)) := by
  have h := context_store_ttl_sweep
    [("a", { session_id := "a" }, (0 : ℚ)), ("b", { session_id := "b" }, 1000)]
    2000 (by unfold NodupKeys; decide)
  refine ⟨?_, (h.2.2.1 "b" { session_id := "b" } 1000).mpr
    ⟨by decide, by norm_num [SESSION_TTL_SECONDS]⟩⟩
  have h1 := h.1
  norm_num at h1
  exact h1

/-- C5: `submit_to_fnol_api` converts every modelled outcome — any HTTP
response status, timeout, network error, or unexpected internal exception —
into a result dictionary instead of propagating an exception: it succeeds
exactly on a 200 response with a decodable body (given configuration and
signing succeed), every failure result carries a machine-readable error
string, and a timeout yields success false, the error string
"Request timeout", and the generic retry-suggesting user message. -/
theorem submit_to_fnol_api_error_handling {P : Type} (payload : P)
    (endpoint : Option String) (signing : SignOutcome) (http : HttpOutcome)
    (nowstamp : String) :
    ((submit_to_fnol_api payload endpoint signing http nowstamp).success = true ↔
      (strFalsy endpoint = false ∧ signing = SignOutcome.ok ∧
        ∃ b t, http = HttpOutcome.resp 200 (JsonOutcome.ok b) t)) ∧
    ((submit_to_fnol_api payload endpoint signing http nowstamp).success = false →
      (submit_to_fnol_api payload endpoint signing http nowstamp).error.isSome) ∧
    (strFalsy endpoint = false → signing = SignOutcome.ok →
      submit_to_fnol_api payload endpoint signing HttpOutcome.timeout nowstamp =
        { success := false, claimNumber := none, payload := none
          message := "The claim submission timed out. Please try again."
          error := some "Request timeout" }) := by
  refine ⟨?_, ?_, ?_⟩
  · by_cases hE : strFalsy endpoint
    · simp [submit_to_fnol_api, hE]
    · cases signing with
      | error e => simp [submit_to_fnol_api, hE]
      | ok =>
          cases http with
          | resp status body text =>
              by_cases hs : status = 200
              · subst hs
                cases body with
                | ok data => simp [submit_to_fnol_api, hE]
                | decodeError e => simp [submit_to_fnol_api, hE]
              · simp [submit_to_fnol_api, hE, hs]
          | timeout => simp [submit_to_fnol_api, hE]
          | requestError e => simp [submit_to_fnol_api, hE]
          | unexpectedError e => simp [submit_to_fnol_api, hE]
  · by_cases hE : strFalsy endpoint
    · simp [submit_to_fnol_api, hE]
    · cases signing with
      | error e => simp [submit_to_fnol_api, hE]
      | ok =>
          cases http with
          | resp status body text =>
              by_cases hs : status = 200
              · subst hs
                cases body with
                | ok data => simp [submit_to_fnol_api, hE]
                | decodeError e => simp [submit_to_fnol_api, hE]
              · simp [submit_to_fnol_api, hE, hs]
          | timeout => simp [submit_to_fnol_api, hE]
          | requestError e => simp [submit_to_fnol_api, hE]
          | unexpectedError e => simp [submit_to_fnol_api, hE]
  · intro hE hsig
    subst hsig
    simp [submit_to_fnol_api, hE]

/-- Witness for C5: a simulated timeout at a concrete configured endpoint
returns the structured timeout failure, that failure carries an error
string, and a concrete 200 response with a decodable body succeeds. -/
theorem submit_to_fnol_api_error_handling_witness :
    submit_to_fnol_api (0 : Nat) (some "https://fnol.example.com")
        SignOutcome.ok HttpOutcome.timeout "20250101000000" =
      { success := false, claimNumber := none, payload := none
        message := "The claim submission timed out. Please try again."
        error := some "Request timeout" } ∧
    (submit_to_fnol_api (0 : Nat) (some "https://fnol.example.com")
        SignOutcome.ok HttpOutcome.timeout "20250101000000").error.isSome = true ∧
    (submit_to_fnol_api (0 : Nat) (some "https://fnol.example.com")
        SignOutcome.ok (HttpOutcome.resp 200
          (JsonOutcome.ok { claimId := some "C-1" }) "") "x").success = true := by
  have h := submit_to_fnol_api_error_handling (0 : Nat)
    (some "https://fnol.example.com") SignOutcome.ok HttpOutcome.timeout
    "20250101000000"
  have h2 := submit_to_fnol_api_error_handling (0 : Nat)
    (some "https://fnol.example.com") SignOutcome.ok
    (HttpOutcome.resp 200 (JsonOutcome.ok { claimId := some "C-1" }) "") "x"
  exact ⟨h.2.2 (by decide) rfl, h.2.1 (by decide),
    h2.1.mpr ⟨by decide, rfl, ⟨{ claimId := some "C-1" }, "", rfl⟩⟩⟩

/-- Decimal digit characters produced by `Nat.digitChar` are digits with the
expected numeric value. -/
theorem digitChar_digit : ∀ m : Nat, m < 10 →
    (Nat.digitChar m).isDigit = true ∧ digitVal (Nat.digitChar m) = m := by
  decide

/-- The fixed-width digit parser inverts the fixed-width renderer, keeping
the accumulated prefix value. -/
theorem takeDigitsAux_padDigits :
    ∀ (w acc n : Nat), n < 10 ^ w → ∀ rest : List Char,
      takeDigitsAux acc w (padDigits w n ++ rest) =
        some (acc * 10 ^ w + n, rest) := by
  intro w
  induction w with
  | zero =>
      intro acc n hn rest
      have hn0 : n = 0 := by simpa using Nat.lt_one_iff.mp (by simpa using hn)
      subst hn0
      simp [padDigits, takeDigitsAux]
  | succ w ih =>
      intro acc n hn rest
      have hp : 0 < 10 ^ w := pow_pos (by norm_num) w
      have hd : n / 10 ^ w < 10 := by
        rw [pow_succ] at hn
        exact Nat.div_lt_of_lt_mul hn
      obtain ⟨h1, h2⟩ := digitChar_digit _ hd
      have hm : n % 10 ^ w < 10 ^ w := Nat.mod_lt _ hp
      simp only [padDigits, List.cons_append, takeDigitsAux, h1, if_true, h2,
        List.append_eq]
      rw [ih (acc * 10 + n / 10 ^ w) (n % 10 ^ w) hm rest]
      have hsplit : 10 ^ w * (n / 10 ^ w) + n % 10 ^ w = n :=
        Nat.div_add_mod n (10 ^ w)
      have harith : (acc * 10 + n / 10 ^ w) * 10 ^ w + n % 10 ^ w =
          acc * 10 ^ (w + 1) + n := by
        have h10 : 10 ^ (w + 1) = 10 ^ w * 10 := pow_succ 10 w
        calc (acc * 10 + n / 10 ^ w) * 10 ^ w + n % 10 ^ w
            = acc * (10 ^ w * 10) + (10 ^ w * (n / 10 ^ w) + n % 10 ^ w) := by
              ring
          _ = acc * 10 ^ (w + 1) + n := by rw [hsplit, ← h10]
      rw [harith]

/-- Parsing exactly `w` digits from a `w`-width rendering yields the value
and the rest. -/
theorem takeDigits_padDigits (w n : Nat) (hn : n < 10 ^ w) (rest : List Char) :
    takeDigits w (padDigits w n ++ rest) = some (n, rest) := by
  unfold takeDigits
  rw [takeDigitsAux_padDigits w 0 n hn rest]
  simp

/-- The fraction parser inverts the fraction renderer whatever follows, as
long as the following text does not itself start with a dot. -/
theorem parseFraction_fracChars (us : Nat) (hus : us < 1000000)
    (rest : List Char) (hhead : rest.head? ≠ some '.') :
    parseFraction (fracChars us ++ rest) = some (us, rest) := by
  by_cases h0 : us = 0
  · subst h0
    simp only [fracChars, if_pos rfl, List.nil_append]
    cases rest with
    | nil => rfl
    | cons c r =>
        have hc : ¬(c = '.') := fun hc => hhead (by simp [hc])
        simp [parseFraction, hc]
  · simp only [fracChars, if_neg h0, List.cons_append, parseFraction, if_pos rfl]
    exact takeDigits_padDigits 6 us (by norm_num [hus]) rest

/-- The offset parser inverts the offset renderer for offsets below 24
hours. -/
theorem parseOffset_offsetChars (tz : Option Int)
    (h : ∀ off, tz = some off → off.natAbs < 1440) :
    parseOffset (offsetChars tz) = some tz := by
  cases tz with
  | none => rfl
  | some off =>
      have hoff := h off rfl
      have h60 : off.natAbs / 60 < 100 := by omega
      have h60b : off.natAbs % 60 < 100 := by omega
      have t1 := takeDigits_padDigits 2 (off.natAbs / 60) h60
        (':' :: padDigits 2 (off.natAbs % 60))
      have t2 := takeDigits_padDigits 2 (off.natAbs % 60) h60b []
      rw [List.append_nil] at t2
      have hval : (off.natAbs / 60 * 60 + off.natAbs % 60 : Nat) = off.natAbs := by
        omega
      by_cases hneg : off < 0
      · simp only [offsetChars, if_pos hneg, parseOffset,
          if_neg (by decide : ¬('-' = 'Z')), if_neg (by decide : ¬('-' = '+')),
          eq_self_iff_true, if_true, t1, expectChar, t2, List.cons_append,
          hval, Option.some.injEq]
        omega
      · simp only [offsetChars, if_neg hneg, parseOffset,
          if_neg (by decide : ¬('+' = 'Z')), eq_self_iff_true, if_true, t1,
          expectChar, t2, List.cons_append, hval, Option.some.injEq]
        omega

/-- Parsing the offset-free `isoformat()` rendering followed by any parsable
offset suffix recovers the datetime with that suffix as its offset. -/
theorem parseISO_isoCore_append (dt : PyDateTime) (tail : List Char)
    (tzr : Option Int)
    (hy : dt.year < 10000) (hmo : dt.month < 100) (hd : dt.day < 100)
    (hh : dt.hour < 100) (hmi : dt.minute < 100) (hs : dt.second < 100)
    (hus : dt.microsecond < 1000000)
    (hhead : tail.head? ≠ some '.')
    (htail : parseOffset tail = some tzr) :
    parseISO (isoCore dt ++ tail) = some { dt with tzOffset := tzr } := by
  simp only [isoCore, List.append_assoc, List.cons_append]
  simp only [parseISO, takeDigits_padDigits 4 dt.year hy,
    takeDigits_padDigits 2 dt.month hmo, takeDigits_padDigits 2 dt.day hd,
    takeDigits_padDigits 2 dt.hour hh, takeDigits_padDigits 2 dt.minute hmi,
    takeDigits_padDigits 2 dt.second hs, expectChar, eq_self_iff_true, if_true,
    parseFraction_fracChars dt.microsecond hus tail hhead, htail]

/-- Numeric field bounds extracted from datetime validity. -/
theorem validB_bounds (dt : PyDateTime) (hv : dt.validB = true) :
    dt.year < 10000 ∧ dt.month < 100 ∧ dt.day < 100 ∧ dt.hour < 100 ∧
    dt.minute < 100 ∧ dt.second < 100 ∧ dt.microsecond < 1000000 ∧
    (∀ off, dt.tzOffset = some off → off.natAbs < 1440) := by
  unfold PyDateTime.validB at hv
  simp only [Bool.and_eq_true, decide_eq_true_eq] at hv
  obtain ⟨hnum, htz⟩ := hv
  refine ⟨by omega, by omega, by omega, by omega, by omega, by omega, by omega, ?_⟩
  intro off hoffeq
  rw [hoffeq] at htz
  simpa using htz

/-- The ISO parser model inverts Python `isoformat()` on every valid
datetime. -/
theorem parseISO_isoChars (dt : PyDateTime) (hv : dt.validB = true) :
    parseISO (isoChars dt) = some dt := by
  obtain ⟨h1, h2, h3, h4, h5, h6, h7, h8⟩ := validB_bounds dt hv
  have hhead : (offsetChars dt.tzOffset).head? ≠ some '.' := by
    cases dt.tzOffset with
    | none => simp [offsetChars]
    | some off => by_cases hneg : off < 0 <;> simp [offsetChars, hneg]
  have hmain := parseISO_isoCore_append dt (offsetChars dt.tzOffset)
    dt.tzOffset h1 h2 h3 h4 h5 h6 h7 hhead
    (parseOffset_offsetChars dt.tzOffset h8)
  simpa [isoChars] using hmain

/-- C6: `parse_to_iso8601` never raises — for every parser behavior and
input, either parsing fails and the original string is returned unchanged,
or the result is the ISO-8601 rendering of the parsed datetime: with a `Z`
suffix exactly when the source carried no offset, and otherwise keeping the
source offset in the rendered string. -/
theorem parse_to_iso8601_normalization (parse : String → PyParseOutcome)
    (s : String) :
    (parse s = PyParseOutcome.failed → parse_to_iso8601 parse s = s) ∧
    (∀ dt, parse s = PyParseOutcome.ok dt → dt.validB = true →
      (dt.tzOffset = none →
        parse_to_iso8601 parse s = isoformat dt ++ "Z" ∧
        isCanonicalISO (parse_to_iso8601 parse s) = true) ∧
      (∀ off, dt.tzOffset = some off →
        parse_to_iso8601 parse s = isoformat dt ∧
        (parseISO (parse_to_iso8601 parse s).data).map PyDateTime.tzOffset =
          some (some off))) := by
  constructor
  · intro h
    simp [parse_to_iso8601, h]
  · intro dt hok hv
    obtain ⟨h1, h2, h3, h4, h5, h6, h7, _⟩ := validB_bounds dt hv
    constructor
    · intro hnaive
      have heq : parse_to_iso8601 parse s = isoformat dt ++ "Z" := by
        simp [parse_to_iso8601, hok, hnaive]
      refine ⟨heq, ?_⟩
      rw [heq]
      have hdata : (isoformat dt ++ "Z").data = isoCore dt ++ ['Z'] := by
        show (isoChars dt ++ ['Z'] : List Char) = isoCore dt ++ ['Z']
        simp [isoChars, hnaive, offsetChars]
      unfold isCanonicalISO
      rw [hdata,
        parseISO_isoCore_append dt ['Z'] (some 0) h1 h2 h3 h4 h5 h6 h7
          (by decide) rfl]
      rfl
    · intro off hoffeq
      have heq : parse_to_iso8601 parse s = isoformat dt := by
        simp [parse_to_iso8601, hok, hoffeq]
      refine ⟨heq, ?_⟩
      rw [heq, show (isoformat dt).data = isoChars dt from rfl,
        parseISO_isoChars dt hv]
      simp [hoffeq]

/-- Witness for C6: concrete behavior of the embedded `parse_to_iso8601` on
an unparsable string, a naive ISO date, and an offset-carrying ISO
datetime. -/
theorem parse_to_iso8601_normalization_witness :
    parse_to_iso8601 dateutilParse "hello" = "hello" ∧
    parse_to_iso8601 dateutilParse "2024-05-15" = "2024-05-15T00:00:00Z" ∧
    isCanonicalISO (parse_to_iso8601 dateutilParse "2024-05-15") = true ∧
    parse_to_iso8601 dateutilParse "2024-05-15T15:30:00+02:00" =
      "2024-05-15T15:30:00+02:00" := by
  have hfail := (parse_to_iso8601_normalization dateutilParse "hello").1
  have hnaive := (parse_to_iso8601_normalization dateutilParse "2024-05-15").2
    ⟨2024, 5, 15, 0, 0, 0, 0, none⟩ (by decide) (by decide)
  have haware :=
    (parse_to_iso8601_normalization dateutilParse "2024-05-15T15:30:00+02:00").2
      ⟨2024, 5, 15, 15, 30, 0, 0, some 120⟩ (by decide) (by decide)
  refine ⟨hfail (by decide), ?_, (hnaive.1 rfl).2, ?_⟩
  · exact ((hnaive.1 rfl).1).trans (by decide)
  · exact ((haware.2 120 rfl).1).trans (by decide)

/-- Counterexample for C7: the canonical ISO-8601 input
"2024-05-15T15:30:00Z" is not preserved — the code re-renders its UTC
`tzinfo` as "+00:00", so `parse_to_iso8601` is not the identity on it. -/
theorem parse_to_iso8601_canonical_counterexample :
    isCanonicalISO "2024-05-15T15:30:00Z" = true ∧
    parse_to_iso8601 dateutilParse "2024-05-15T15:30:00Z" ≠
      "2024-05-15T15:30:00Z" := by
  constructor <;> decide

/-- C7 (amended): `parse_to_iso8601` preserves exactly the canonical
ISO-8601 strings that are Python `isoformat()` renderings carrying an
explicit numeric offset; for every valid offset-aware datetime, the
rendering is a fixed point. -/
theorem parse_to_iso8601_fixed_point_offset (dt : PyDateTime)
    (hv : dt.validB = true) (off : Int) (hoff : dt.tzOffset = some off) :
    parse_to_iso8601 dateutilParse (isoformat dt) = isoformat dt := by
  unfold parse_to_iso8601 dateutilParse
  rw [show (isoformat dt).data = isoChars dt from rfl, parseISO_isoChars dt hv]
  simp [hoff]

/-- Witness for C7: the rendering of 2024-05-15T15:30:00+00:00 is preserved
exactly by the embedded `parse_to_iso8601`. -/
theorem parse_to_iso8601_fixed_point_offset_witness :
    PyDateTime.validB ⟨2024, 5, 15, 15, 30, 0, 0, some 0⟩ = true ∧
    parse_to_iso8601 dateutilParse (isoformat ⟨2024, 5, 15, 15, 30, 0, 0, some 0⟩) =
      isoformat ⟨2024, 5, 15, 15, 30, 0, 0, some 0⟩ :=
  ⟨by decide, parse_to_iso8601_fixed_point_offset _ (by decide) 0 rfl⟩

end FNOL
